import Mathlib

/-!
Verification of the LittleStack authentication API.

The repository ships `src/app.js` (the exported Express application), the
controller test suite `src/tests/controllers/auth.controller.test.js`, and
documentation.  The auth controller, user service, JWT utilities, cookie
utilities and validation schemas are declared and exercised by the tests but
their implementation files are not in the snapshot; those components are
modelled here from the specification (each such definition is marked
`Modelled from the spec:`), faithful to the behaviour the spec and the test
suite prescribe.  `app.js` itself is embedded directly.
-/

namespace LittleStack

/-- HTTP methods appearing in the application's routing table. -/
inductive Method where
  | GET
  | POST
deriving DecidableEq, Repr

/-- A registered route of an Express application: method and path. -/
structure Route where
  method : Method
  path : String
deriving DecidableEq, Repr

/-- Routing table of the application exported from `src/app.js`: it registers
exactly one route, `GET /`, and mounts nothing else. -/
def appRoutes : List Route := [⟨.GET, "/"⟩]

/-- Body sent by the `GET /` handler in `src/app.js`. -/
def appRootBody : String := "Hello from LittleStack API"

/-- Routing table of the application built by `createTestApp` in
`src/tests/controllers/auth.controller.test.js`: the three auth endpoints. -/
def createTestAppRoutes : List Route :=
  [⟨.POST, "/signup"⟩, ⟨.POST, "/signin"⟩, ⟨.POST, "/signout"⟩]

/-- Whether a routing table has a handler for a method/path pair. -/
def hasHandler (routes : List Route) (m : Method) (p : String) : Bool :=
  routes.any (fun r => r.method == m && r.path == p)

/-- Claims carried by the identity token: exactly id, email and role. -/
structure Claims where
  id : Nat
  email : String
  role : String
deriving DecidableEq, Repr

/-- Payload of a signed token: the claims plus an expiry timestamp. -/
structure TokenPayload where
  claims : Claims
  exp : Nat
deriving DecidableEq, Repr

/-- Idealized message-authentication code over a token payload: the signature
is modelled as the (secret, payload) pair, so two signatures agree exactly
when both the key and the signed payload agree. -/
structure Sig where
  secret : String
  payload : TokenPayload
deriving DecidableEq, Repr

/-- Modelled from the spec: the signing primitive of the Token Signer
(`src/utils/jwt.js`, absent from the snapshot). -/
def hmac (secret : String) (payload : TokenPayload) : Sig :=
  ⟨secret, payload⟩

/-- A signed token: payload together with its signature. -/
structure SignedToken where
  payload : TokenPayload
  sig : Sig
deriving DecidableEq, Repr

/-- Token lifetime in seconds (the configuration constant; one day). -/
def jwtExpiresInSeconds : Nat := 86400

/-- Modelled from the spec: `jwtToken.sign(claims)` of `src/utils/jwt.js`
(absent from the snapshot) — encodes {id, email, role} with an expiry and
signs the payload with the configured secret. -/
def jwtSign (secret : String) (now : Nat) (c : Claims) : SignedToken :=
  let p : TokenPayload := ⟨c, now + jwtExpiresInSeconds⟩
  ⟨p, hmac secret p⟩

/-- Failure of token verification. -/
inductive JwtError where
  | invalidToken
deriving DecidableEq, Repr

/-- Modelled from the spec: `jwtToken.verify(token)` of `src/utils/jwt.js`
(absent from the snapshot) — yields the claims, or `InvalidToken` when the
signature does not match the payload (tampering) or the expiry has passed. -/
def jwtVerify (secret : String) (now : Nat) (t : SignedToken) :
    Except JwtError Claims :=
  if t.sig ≠ hmac secret t.payload then .error .invalidToken
  else if t.payload.exp ≤ now then .error .invalidToken
  else .ok t.payload.claims

/-- A Set-Cookie header emitted on a response.  `value = none` models the
empty value written by `clear`; `expired` records whether the Expires
attribute is an already-past timestamp. -/
structure SetCookie where
  name : String
  value : Option SignedToken
  httpOnly : Bool
  sameSite : String
  secure : Bool
  expired : Bool
deriving DecidableEq, Repr

/-- Modelled from the spec: `cookies.set(res, 'token', token)` of
`src/utils/cookies.js` (absent from the snapshot) — http-only, same-site
restricted, secure in production, not yet expired. -/
def cookiesSet (secureFlag : Bool) (tok : SignedToken) : SetCookie :=
  ⟨"token", some tok, true, "strict", secureFlag, false⟩

/-- Modelled from the spec: `cookies.clear(res, 'token')` of
`src/utils/cookies.js` (absent from the snapshot) — same cookie name, empty
value, already-expired timestamp, unconditionally. -/
def cookiesClear (secureFlag : Bool) : SetCookie :=
  ⟨"token", none, true, "strict", secureFlag, true⟩

/-- A stored user record (the `users` table row). -/
structure User where
  id : Nat
  name : String
  email : String
  password : String
  role : String
  createdAt : Nat
deriving DecidableEq, Repr

/-- Public user view returned to clients: exactly {id, name, email, role};
the password hash has no field here and so is never serialized. -/
structure PublicUser where
  id : Nat
  name : String
  email : String
  role : String
deriving DecidableEq, Repr

/-- Projection of a stored record to its public view. -/
def toPublicUser (u : User) : PublicUser :=
  ⟨u.id, u.name, u.email, u.role⟩

/-- Modelled from the spec: the salted password hash (bcrypt wrapper in the
Password Hasher, absent from the snapshot), idealized as a deterministic
injective encoding. -/
def hashPassword (plain : String) : String :=
  "bcrypt$" ++ plain

/-- Modelled from the spec: verification of a plaintext against a stored
hash. -/
def comparePassword (plain stored : String) : Bool :=
  hashPassword plain == stored

/-- Lookup by email in the user store (the storage collaborator's
find-by-email, email being unique). -/
def findUserByEmail (store : List User) (email : String) : Option User :=
  store.find? (fun u => u.email == email)

/-- Modelled from the spec: `createUser` of `src/services/auth.service.js`
(absent from the snapshot) — fails with message "User already exists" when
the email is taken, otherwise hashes the password, persists the record and
returns the public view.  Errors are message strings, as the handlers match
on the thrown error's message. -/
def createUser (store : List User) (now : Nat)
    (name email password role : String) :
    Except String (PublicUser × List User) :=
  match findUserByEmail store email with
  | some _ => .error "User already exists"
  | none =>
    let u : User := ⟨store.length + 1, name, email, hashPassword password,
                     role, now⟩
    .ok (toPublicUser u, store ++ [u])

/-- Modelled from the spec: `authenticateUser` of
`src/services/auth.service.js` (absent from the snapshot) — "User not found"
when no user matches the email, "Invalid password" when the hash comparison
fails, otherwise the public view. -/
def authenticateUser (store : List User) (email password : String) :
    Except String PublicUser :=
  match findUserByEmail store email with
  | none => .error "User not found"
  | some u =>
    if comparePassword password u.password then .ok (toPublicUser u)
    else .error "Invalid password"

/-- A raw JSON request body as relevant to the auth schemas; a `none` field
is absent from the body. -/
structure RawBody where
  name : Option String
  email : Option String
  password : Option String
deriving DecidableEq, Repr

/-- Splits a character list at the first `@` sign, provided exactly one
occurs: the local part and the domain part of an email address. -/
def emailParts : List Char → Option (List Char × List Char)
  | [] => none
  | c :: cs =>
    if c = '@' then
      if cs.contains '@' then none else some ([], cs)
    else
      match emailParts cs with
      | none => none
      | some (l, d) => some (c :: l, d)

/-- Modelled from the spec: the email-format check of the Zod schemas —
exactly one `@`, nonempty local and domain parts, a dot in the domain. -/
def emailValid (s : String) : Bool :=
  match emailParts s.toList with
  | some (l, d) => !l.isEmpty && !d.isEmpty && d.contains '.'
  | none => false

/-- One field's contribution to the validation error list: absent fields and
fields failing their shape check each report one message. -/
def fieldCheck (field : Option String) (missingMsg : String)
    (ok : String → Bool) (badMsg : String) : List String :=
  match field with
  | none => [missingMsg]
  | some v => if ok v then [] else [badMsg]

/-- Modelled from the spec: all field violations of the signup schema
(`src/validations/auth.validation.js`, absent from the snapshot), collected
across every field rather than stopping at the first. -/
def signupErrors (b : RawBody) : List String :=
  fieldCheck b.name "name: Required" (fun n => !n.isEmpty)
      "name: Too short"
  ++ fieldCheck b.email "email: Required" emailValid "email: Invalid email"
  ++ fieldCheck b.password "password: Required" (fun p => !p.isEmpty)
      "password: Too short"

/-- Modelled from the spec: all field violations of the signin schema. -/
def signinErrors (b : RawBody) : List String :=
  fieldCheck b.email "email: Required" emailValid "email: Invalid email"
  ++ fieldCheck b.password "password: Required" (fun p => !p.isEmpty)
      "password: Too short"

/-- Modelled from the spec: the signup schema check — the normalized
(name, email, password) triple, or the collected violation list. -/
def validateSignup (b : RawBody) :
    Except (List String) (String × String × String) :=
  match b.name, b.email, b.password with
  | some n, some e, some p =>
    if signupErrors b = [] then .ok (n, e, p) else .error (signupErrors b)
  | _, _, _ => .error (signupErrors b)

/-- Modelled from the spec: the signin schema check. -/
def validateSignin (b : RawBody) : Except (List String) (String × String) :=
  match b.email, b.password with
  | some e, some p =>
    if signinErrors b = [] then .ok (e, p) else .error (signinErrors b)
  | _, _ => .error (signinErrors b)

/-- The JSON bodies the auth surface produces. -/
inductive ResBody where
  | text (s : String)
  | msg (message : String)
  | msgUser (message : String) (user : PublicUser)
  | err (error : String)
  | errDetails (error : String) (details : List String)
deriving DecidableEq, Repr

/-- An HTTP response: status, JSON body, and the Set-Cookie headers. -/
structure Response where
  status : Nat
  body : ResBody
  setCookies : List SetCookie
deriving DecidableEq, Repr

/-- The 400 response for a failed schema check. -/
def validationFailedResponse (ds : List String) : Response :=
  ⟨400, .errDetails "Validation failed" ds, []⟩

/-- The generic error boundary of the application (the error-handling
middleware in the test app): status 500, a fixed body with only an `error`
key, no stack trace and no internal identifier. -/
def internalErrorResponse : Response :=
  ⟨500, .err "Internal server error", []⟩

/-- Modelled from the spec: the signup handler's catch block composed with
the error middleware — "User already exists" maps to 409, every other
thrown error falls through `next(error)` to the 500 boundary. -/
def signupCatch (msg : String) : Response :=
  if msg = "User already exists" then ⟨409, .err "User already exists", []⟩
  else internalErrorResponse

/-- Modelled from the spec: the signin handler's catch block composed with
the error middleware — both "User not found" and "Invalid password" map to
the same 401 "Invalid credentials", every other thrown error falls through
to the 500 boundary. -/
def signinCatch (msg : String) : Response :=
  if msg = "User not found" || msg = "Invalid password" then
    ⟨401, .err "Invalid credentials", []⟩
  else internalErrorResponse

/-- Modelled from the spec: the `signup` controller of
`src/controllers/auth.controller.js` (absent from the snapshot): validate,
create the user with role `user`, sign a token over {id, email, role},
attach the cookie, answer 201. Returns the response and the store after the
request. -/
def signup (secureFlag : Bool) (secret : String) (now : Nat)
    (store : List User) (body : RawBody) : Response × List User :=
  match validateSignup body with
  | .error ds => (validationFailedResponse ds, store)
  | .ok (n, e, p) =>
    match createUser store now n e p "user" with
    | .error m => (signupCatch m, store)
    | .ok (u, store2) =>
      let tok := jwtSign secret now ⟨u.id, u.email, u.role⟩
      (⟨201, .msgUser "User registered successfully" u,
        [cookiesSet secureFlag tok]⟩, store2)

/-- Modelled from the spec: the `signin` controller of
`src/controllers/auth.controller.js` (absent from the snapshot): validate,
authenticate, sign a token over {id, email, role}, attach the cookie,
answer 200. -/
def signin (secureFlag : Bool) (secret : String) (now : Nat)
    (store : List User) (body : RawBody) : Response × List User :=
  match validateSignin body with
  | .error ds => (validationFailedResponse ds, store)
  | .ok (e, p) =>
    match authenticateUser store e p with
    | .error m => (signinCatch m, store)
    | .ok u =>
      let tok := jwtSign secret now ⟨u.id, u.email, u.role⟩
      (⟨200, .msgUser "User signed in successfully" u,
        [cookiesSet secureFlag tok]⟩, store)

/-- Modelled from the spec: the `signout` controller — unconditionally
clears the cookie and answers 200, ignoring the request's cookies. -/
def signout (secureFlag : Bool) (reqCookies : List (String × String)) :
    Response :=
  ⟨200, .msg "User signed out successfully", [cookiesClear secureFlag]⟩

end LittleStack

namespace LittleStack

/-! Helper lemmas shared by the claim theorems. -/

theorem validateSignup_error_ne_nil (b : RawBody) (ds : List String)
    (h : validateSignup b = .error ds) : ds ≠ [] := by
  obtain ⟨n, e, p⟩ := b
  cases n <;> cases e <;> cases p <;>
    simp only [validateSignup] at h
  all_goals
    first
    | (split at h
       · simp at h
       · rename_i hne
         injection h with h2
         exact h2 ▸ hne)
    | (injection h with h2
       subst h2
       simp [signupErrors, fieldCheck, List.append_eq_nil])

theorem validateSignin_error_ne_nil (b : RawBody) (ds : List String)
    (h : validateSignin b = .error ds) : ds ≠ [] := by
  obtain ⟨n, e, p⟩ := b
  cases e <;> cases p <;>
    simp only [validateSignin] at h
  all_goals
    first
    | (split at h
       · simp at h
       · rename_i hne
         injection h with h2
         exact h2 ▸ hne)
    | (injection h with h2
       subst h2
       simp [signinErrors, fieldCheck, List.append_eq_nil])

end LittleStack

namespace LittleStack

/-- Claim C10: the Express application exported from `app.js` registers
exactly one route, `GET /`, whose handler responds with the body
"Hello from LittleStack API"; none of the three auth endpoints is mounted
on it, so no POST to /signup, /signin or /signout has a matching handler. -/
theorem app_js_mounts_only_root :
    appRoutes = [⟨.GET, "/"⟩]
    ∧ appRootBody = "Hello from LittleStack API"
    ∧ (["/signup", "/signin", "/signout"].all
        (fun p => !hasHandler appRoutes .POST p)) = true :=
  ⟨rfl, rfl, by decide⟩

/-- Claim C2, counterexample: the application exported from `app.js` has no
handler for POST /signup, so the claim that every POST to the three auth
paths meets a matching handler fails on the exported application. -/
theorem exported_app_lacks_signup_handler :
    hasHandler appRoutes .POST "/signup" = false := by decide

/-- Claim C2 (amended): the three auth handlers exist and are mounted at
POST /signup, /signin and /signout on the application built by
`createTestApp` in the test suite, but the application exported from
`app.js` mounts none of them. -/
theorem auth_endpoints_mounted_on_test_app_only :
    (["/signup", "/signin", "/signout"].all
      (fun p => hasHandler createTestAppRoutes .POST p)) = true
    ∧ hasHandler appRoutes .POST "/signin" = false
    ∧ hasHandler appRoutes .POST "/signout" = false := by decide

/-- Claim C6: signout is precondition-free and idempotent — with any request
cookies (including none), it answers 200 with message "User signed out
successfully" and sets the `token` cookie to an empty value with an
already-expired timestamp; the response never depends on the request. -/
theorem signout_unconditional (secureFlag : Bool)
    (reqCookies : List (String × String)) :
    signout secureFlag reqCookies =
      ⟨200, .msg "User signed out successfully", [cookiesClear secureFlag]⟩
    ∧ (cookiesClear secureFlag).name = "token"
    ∧ (cookiesClear secureFlag).value = none
    ∧ (cookiesClear secureFlag).expired = true
    ∧ signout secureFlag reqCookies = signout secureFlag [] :=
  ⟨rfl, rfl, rfl, rfl, rfl⟩

/-- Claim C8: any downstream error message that the handlers do not map to
409 (signup's conflict) or 401 (signin's two credential failures) reaches
the generic boundary: status 500 with body exactly
{error: "Internal server error"} — independent of the message, so no stack
trace or internal identifier can appear in the response. -/
theorem unmapped_errors_hit_500 (msg : String)
    (h1 : msg ≠ "User already exists")
    (h2 : msg ≠ "User not found")
    (h3 : msg ≠ "Invalid password") :
    signupCatch msg = ⟨500, .err "Internal server error", []⟩
    ∧ signinCatch msg = ⟨500, .err "Internal server error", []⟩
    ∧ internalErrorResponse = ⟨500, .err "Internal server error", []⟩ := by
  refine ⟨?_, ?_, rfl⟩
  · simp [signupCatch, h1, internalErrorResponse]
  · simp [signinCatch, h2, h3, internalErrorResponse]

/-- Witness for the 500-boundary theorem at a concrete unmapped message. -/
theorem unmapped_errors_hit_500_witness :
    ("database unreachable" : String) ≠ "User already exists"
    ∧ signupCatch "database unreachable" =
        ⟨500, .err "Internal server error", []⟩
    ∧ signinCatch "database unreachable" =
        ⟨500, .err "Internal server error", []⟩ :=
  ⟨by decide,
   (unmapped_errors_hit_500 "database unreachable"
      (by decide) (by decide) (by decide)).1,
   (unmapped_errors_hit_500 "database unreachable"
      (by decide) (by decide) (by decide)).2.1⟩

end LittleStack

namespace LittleStack

/-- Claim C7: token round trip — verifying, before expiry, the token signed
for claims {id, email, role} yields back the same claims; verification
fails with InvalidToken on every token past its expiry, and on every token
carrying a genuine signature but an altered payload. -/
theorem jwt_sign_verify_round_trip (secret : String) (now now2 : Nat)
    (c : Claims) (t : SignedToken) :
    (now2 < now + jwtExpiresInSeconds →
      jwtVerify secret now2 (jwtSign secret now c) = .ok c)
    ∧ (t.payload.exp ≤ now2 →
      jwtVerify secret now2 t = .error .invalidToken)
    ∧ (t.sig = (jwtSign secret now c).sig →
      t.payload ≠ (jwtSign secret now c).payload →
      jwtVerify secret now2 t = .error .invalidToken) := by
  refine ⟨?_, ?_, ?_⟩
  · intro h
    have hexp : ¬(now + jwtExpiresInSeconds ≤ now2) := by omega
    simp [jwtVerify, jwtSign, hexp]
  · intro hexp
    by_cases hs : t.sig = hmac secret t.payload
    · simp [jwtVerify, hs, hexp]
    · simp [jwtVerify, hs]
  · intro hs hp
    have hne : t.sig ≠ hmac secret t.payload := by
      intro hcontra
      apply hp
      rw [hcontra] at hs
      have : t.payload = (jwtSign secret now c).payload := by
        simpa [hmac, jwtSign, Sig.mk.injEq] using hs
      exact this
    simp [jwtVerify, hne]

/-- Witness for the round-trip theorem: a fresh token verifies to its
claims; the same token at its expiry instant fails; a token reusing that
signature over a different payload fails. -/
theorem jwt_sign_verify_round_trip_witness :
    jwtVerify "k" 5 (jwtSign "k" 0 ⟨1, "a@b.c", "user"⟩) =
      .ok ⟨1, "a@b.c", "user"⟩
    ∧ jwtVerify "k" jwtExpiresInSeconds (jwtSign "k" 0 ⟨1, "a@b.c", "user"⟩) =
      .error .invalidToken
    ∧ jwtVerify "k" 5
        ⟨⟨⟨2, "a@b.c", "admin"⟩, jwtExpiresInSeconds⟩,
         (jwtSign "k" 0 ⟨1, "a@b.c", "user"⟩).sig⟩ =
      .error .invalidToken :=
  ⟨(jwt_sign_verify_round_trip "k" 0 5 ⟨1, "a@b.c", "user"⟩
      (jwtSign "k" 0 ⟨1, "a@b.c", "user"⟩)).1 (by decide),
   (jwt_sign_verify_round_trip "k" 0 jwtExpiresInSeconds ⟨1, "a@b.c", "user"⟩
      (jwtSign "k" 0 ⟨1, "a@b.c", "user"⟩)).2.1 (by decide),
   (jwt_sign_verify_round_trip "k" 0 5 ⟨1, "a@b.c", "user"⟩
      ⟨⟨⟨2, "a@b.c", "admin"⟩, jwtExpiresInSeconds⟩,
       (jwtSign "k" 0 ⟨1, "a@b.c", "user"⟩).sig⟩).2.2 rfl (by decide)⟩

/-- Claim C1: a signin whose email matches no stored user and a signin whose
email matches a user but whose password fails the hash comparison produce
the identical response — 401 with body {error: "Invalid credentials"} and
no Set-Cookie header — so the two failure causes are indistinguishable. -/
theorem signin_failures_indistinguishable
    (secureFlag : Bool) (secret : String) (now : Nat)
    (store1 : List User) (b1 : RawBody) (e1 p1 : String)
    (store2 : List User) (b2 : RawBody) (e2 p2 : String) (u : User)
    (hv1 : validateSignin b1 = .ok (e1, p1))
    (h1 : findUserByEmail store1 e1 = none)
    (hv2 : validateSignin b2 = .ok (e2, p2))
    (h2 : findUserByEmail store2 e2 = some u)
    (hcmp : comparePassword p2 u.password = false) :
    (signin secureFlag secret now store1 b1).1 =
      ⟨401, .err "Invalid credentials", []⟩
    ∧ (signin secureFlag secret now store2 b2).1 =
      ⟨401, .err "Invalid credentials", []⟩
    ∧ (signin secureFlag secret now store1 b1).1 =
      (signin secureFlag secret now store2 b2).1 := by
  have hA : (signin secureFlag secret now store1 b1).1 =
      ⟨401, .err "Invalid credentials", []⟩ := by
    simp [signin, hv1, authenticateUser, h1, signinCatch]
  have hB : (signin secureFlag secret now store2 b2).1 =
      ⟨401, .err "Invalid credentials", []⟩ := by
    simp [signin, hv2, authenticateUser, h2, hcmp, signinCatch]
  exact ⟨hA, hB, hA.trans hB.symm⟩

/-- Witness for the signin-indistinguishability theorem: an empty store with
an unknown email, and a store whose user has a different password. -/
theorem signin_failures_indistinguishable_witness :
    (signin false "k" 0 [] ⟨none, some "x@y.z", some "pw"⟩).1 =
      ⟨401, .err "Invalid credentials", []⟩
    ∧ (signin false "k" 0 [⟨1, "N", "x@y.z", hashPassword "right", "user", 0⟩]
        ⟨none, some "x@y.z", some "wrong"⟩).1 =
      ⟨401, .err "Invalid credentials", []⟩ := by
  have h := signin_failures_indistinguishable false "k" 0
    [] ⟨none, some "x@y.z", some "pw"⟩ "x@y.z" "pw"
    [⟨1, "N", "x@y.z", hashPassword "right", "user", 0⟩]
    ⟨none, some "x@y.z", some "wrong"⟩ "x@y.z" "wrong"
    ⟨1, "N", "x@y.z", hashPassword "right", "user", 0⟩
    rfl rfl rfl rfl rfl
  exact ⟨h.1, h.2.1⟩

end LittleStack

namespace LittleStack

/-- Claim C3: a signup whose body passes the schema and whose email is
fresh answers 201 with message "User registered successfully" and a body
user of exactly {id, name, email, role} (the public view, whose type has no
password field and which is invariant under the stored hash), together with
a single Set-Cookie header for the cookie named `token`. -/
theorem signup_success_response
    (secureFlag : Bool) (secret : String) (now : Nat) (store : List User)
    (b : RawBody) (n e p : String)
    (hv : validateSignup b = .ok (n, e, p))
    (hfresh : findUserByEmail store e = none) :
    (signup secureFlag secret now store b).1 =
      ⟨201,
       .msgUser "User registered successfully"
         ⟨store.length + 1, n, e, "user"⟩,
       [cookiesSet secureFlag
          (jwtSign secret now ⟨store.length + 1, e, "user"⟩)]⟩
    ∧ (cookiesSet secureFlag
        (jwtSign secret now ⟨store.length + 1, e, "user"⟩)).name = "token"
    ∧ ∀ (u : User) (h : String),
        toPublicUser { u with password := h } = toPublicUser u := by
  refine ⟨?_, rfl, fun u h => rfl⟩
  simp [signup, hv, createUser, hfresh, toPublicUser]

/-- Witness for the signup-success theorem on an empty store. -/
theorem signup_success_response_witness :
    validateSignup
        ⟨some "Test User", some "test@example.com", some "password123"⟩ =
      .ok ("Test User", "test@example.com", "password123")
    ∧ (signup false "k" 0 []
        ⟨some "Test User", some "test@example.com", some "password123"⟩).1 =
      ⟨201,
       .msgUser "User registered successfully"
         ⟨1, "Test User", "test@example.com", "user"⟩,
       [cookiesSet false (jwtSign "k" 0 ⟨1, "test@example.com", "user"⟩)]⟩ :=
  ⟨rfl,
   (signup_success_response false "k" 0 []
      ⟨some "Test User", some "test@example.com", some "password123"⟩
      "Test User" "test@example.com" "password123" rfl rfl).1⟩

/-- Claim C4: a signup whose body passes the schema but whose email equals
the email of a stored user answers 409 with body
{error: "User already exists"} and leaves the store unchanged, for all
values of the name and password fields. -/
theorem signup_conflict_response
    (secureFlag : Bool) (secret : String) (now : Nat) (store : List User)
    (b : RawBody) (n e p : String) (u : User)
    (hv : validateSignup b = .ok (n, e, p))
    (hexists : findUserByEmail store e = some u) :
    signup secureFlag secret now store b =
      (⟨409, .err "User already exists", []⟩, store) := by
  simp [signup, hv, createUser, hexists, signupCatch]

/-- Witness for the signup-conflict theorem: a store already holding the
email, with fresh name and password values. -/
theorem signup_conflict_response_witness :
    findUserByEmail [⟨1, "Old", "dup@e.c", hashPassword "old", "user", 0⟩]
        "dup@e.c" =
      some ⟨1, "Old", "dup@e.c", hashPassword "old", "user", 0⟩
    ∧ signup false "k" 0
        [⟨1, "Old", "dup@e.c", hashPassword "old", "user", 0⟩]
        ⟨some "New Name", some "dup@e.c", some "otherpass"⟩ =
      (⟨409, .err "User already exists", []⟩,
       [⟨1, "Old", "dup@e.c", hashPassword "old", "user", 0⟩]) :=
  ⟨rfl,
   signup_conflict_response false "k" 0
     [⟨1, "Old", "dup@e.c", hashPassword "old", "user", 0⟩]
     ⟨some "New Name", some "dup@e.c", some "otherpass"⟩
     "New Name" "dup@e.c" "otherpass"
     ⟨1, "Old", "dup@e.c", hashPassword "old", "user", 0⟩ rfl rfl⟩

/-- Claim C5: a signup or signin body failing its schema answers 400 with a
non-empty details list and has no side effects — the store is unchanged and
no Set-Cookie header is emitted. -/
theorem validation_failure_is_safe
    (secureFlag : Bool) (secret : String) (now : Nat)
    (store : List User) (b : RawBody) (ds : List String)
    (store2 : List User) (b2 : RawBody) (ds2 : List String)
    (h1 : validateSignup b = .error ds)
    (h2 : validateSignin b2 = .error ds2) :
    signup secureFlag secret now store b =
      (⟨400, .errDetails "Validation failed" ds, []⟩, store)
    ∧ ds ≠ []
    ∧ signin secureFlag secret now store2 b2 =
      (⟨400, .errDetails "Validation failed" ds2, []⟩, store2)
    ∧ ds2 ≠ [] := by
  refine ⟨?_, validateSignup_error_ne_nil b ds h1, ?_,
    validateSignin_error_ne_nil b2 ds2 h2⟩
  · simp [signup, h1, validationFailedResponse]
  · simp [signin, h2, validationFailedResponse]

/-- Witness for the validation-failure theorem: a signup body with a
malformed email and a signin body missing the password. -/
theorem validation_failure_is_safe_witness :
    signup false "k" 0 []
        ⟨some "Test User", some "invalid-email", some "password123"⟩ =
      (⟨400, .errDetails "Validation failed" ["email: Invalid email"], []⟩,
       [])
    ∧ (["email: Invalid email"] : List String) ≠ []
    ∧ signin false "k" 0 [] ⟨none, some "x@y.z", none⟩ =
      (⟨400, .errDetails "Validation failed" ["password: Required"], []⟩,
       [])
    ∧ (["password: Required"] : List String) ≠ [] :=
  validation_failure_is_safe false "k" 0
    [] ⟨some "Test User", some "invalid-email", some "password123"⟩
    ["email: Invalid email"]
    [] ⟨none, some "x@y.z", none⟩ ["password: Required"] rfl rfl

/-- Claim C9: the signup handler passes role `user` to `createUser` — the
record persisted for a valid fresh signup carries role "user" — and both
after signup and after signin the attached token is signed over exactly the
claims {id, email, role} of the created or authenticated user. -/
theorem signup_role_and_token_claims
    (secureFlag : Bool) (secret : String) (now : Nat)
    (store : List User) (b : RawBody) (n e p : String)
    (store2 : List User) (b2 : RawBody) (e2 p2 : String) (u2 : PublicUser)
    (hv : validateSignup b = .ok (n, e, p))
    (hfresh : findUserByEmail store e = none)
    (hv2 : validateSignin b2 = .ok (e2, p2))
    (hauth : authenticateUser store2 e2 p2 = .ok u2) :
    (signup secureFlag secret now store b).2 =
      store ++ [⟨store.length + 1, n, e, hashPassword p, "user", now⟩]
    ∧ (signup secureFlag secret now store b).1.setCookies =
      [cookiesSet secureFlag
        (jwtSign secret now ⟨store.length + 1, e, "user"⟩)]
    ∧ (signin secureFlag secret now store2 b2).1.setCookies =
      [cookiesSet secureFlag
        (jwtSign secret now ⟨u2.id, u2.email, u2.role⟩)] := by
  refine ⟨?_, ?_, ?_⟩
  · simp [signup, hv, createUser, hfresh]
  · simp [signup, hv, createUser, hfresh, toPublicUser]
  · simp [signin, hv2, hauth]

/-- Witness for the role-and-claims theorem: a fresh signup on an empty
store and a successful signin against a one-user store. -/
theorem signup_role_and_token_claims_witness :
    (signup false "k" 0 [] ⟨some "T", some "t@e.c", some "pw"⟩).2 =
      [] ++ [⟨1, "T", "t@e.c", hashPassword "pw", "user", 0⟩]
    ∧ (signup false "k" 0 [] ⟨some "T", some "t@e.c", some "pw"⟩).1.setCookies =
      [cookiesSet false (jwtSign "k" 0 ⟨1, "t@e.c", "user"⟩)]
    ∧ (signin false "k" 0 [⟨1, "N", "a@b.c", hashPassword "pw", "user", 0⟩]
        ⟨none, some "a@b.c", some "pw"⟩).1.setCookies =
      [cookiesSet false (jwtSign "k" 0 ⟨1, "a@b.c", "user"⟩)] :=
  signup_role_and_token_claims false "k" 0
    [] ⟨some "T", some "t@e.c", some "pw"⟩ "T" "t@e.c" "pw"
    [⟨1, "N", "a@b.c", hashPassword "pw", "user", 0⟩]
    ⟨none, some "a@b.c", some "pw"⟩ "a@b.c" "pw" ⟨1, "N", "a@b.c", "user"⟩
    rfl rfl rfl rfl

end LittleStack
